import Mathlib

/-!
Verification of the quantity/unit engine specified by the repository's
design document. The repository's own files (instructional notebooks)
only *call* the engine; the engine itself is not among the source files,
so every definition below is modelled from the specification's words
(dimension vectors over eight base dimensions, units as scale factors,
quantities as magnitude/unit pairs, equivalency-based conversion,
constants with unit-system context, physical-type classification).
Dimension-vector exponents are exact rationals, exactly as specified;
magnitudes and scale factors are real numbers, idealizing the
floating-point numbers of the running system, so that raising a unit or
quantity to an arbitrary rational power is well defined. All branching in
the engine is on dimension vectors, which keeps every branch decision
decidable.
-/

namespace AstropyUnits

noncomputable section

/-- Modelled from the spec: a dimension vector is an immutable tuple of
rational exponents over the fixed basis of base dimensions (length, mass,
time, current, temperature, amount, luminous intensity, angle). -/
structure Dimension where
  length : ℚ
  mass : ℚ
  time : ℚ
  current : ℚ
  temperature : ℚ
  amount : ℚ
  luminous : ℚ
  angle : ℚ
deriving DecidableEq

/-- Modelled from the spec: multiplying two units adds their dimension
vectors component-wise. -/
def Dimension.add (a b : Dimension) : Dimension :=
  ⟨a.length + b.length, a.mass + b.mass, a.time + b.time, a.current + b.current,
   a.temperature + b.temperature, a.amount + b.amount, a.luminous + b.luminous,
   a.angle + b.angle⟩

/-- Modelled from the spec: dividing two units subtracts their dimension
vectors component-wise. -/
def Dimension.sub (a b : Dimension) : Dimension :=
  ⟨a.length - b.length, a.mass - b.mass, a.time - b.time, a.current - b.current,
   a.temperature - b.temperature, a.amount - b.amount, a.luminous - b.luminous,
   a.angle - b.angle⟩

/-- Modelled from the spec: raising a unit to a rational power scales the
dimension vector by the exponent. -/
def Dimension.smul (r : ℚ) (d : Dimension) : Dimension :=
  ⟨r * d.length, r * d.mass, r * d.time, r * d.current,
   r * d.temperature, r * d.amount, r * d.luminous, r * d.angle⟩

/-- The dimension vector of a pure length. -/
def dimLength : Dimension := ⟨1, 0, 0, 0, 0, 0, 0, 0⟩

/-- The dimension vector of a pure time. -/
def dimTime : Dimension := ⟨0, 0, 1, 0, 0, 0, 0, 0⟩

/-- The dimension vector of a temperature. -/
def dimTemperature : Dimension := ⟨0, 0, 0, 0, 1, 0, 0, 0⟩

/-- The dimension vector of an energy (length² · mass · time⁻²). -/
def dimEnergy : Dimension := ⟨2, 1, -2, 0, 0, 0, 0, 0⟩

/-- The dimension vector of an electric charge (current · time). -/
def dimCharge : Dimension := ⟨0, 0, 1, 1, 0, 0, 0, 0⟩

/-- Modelled from the spec: a unit is a named scale factor relative to the
base unit of its dimension vector (e.g. centimeter = 0.01 · meter). -/
structure Unit where
  dim : Dimension
  scale : ℝ

/-- Modelled from the spec: unit · unit — dimension vectors add
component-wise, scale factors multiply. -/
def Unit.mul (a b : Unit) : Unit := ⟨a.dim.add b.dim, a.scale * b.scale⟩

/-- Modelled from the spec: unit / unit — dimension vectors subtract,
scale factors divide. -/
def Unit.div (a b : Unit) : Unit := ⟨a.dim.sub b.dim, a.scale / b.scale⟩

/-- Modelled from the spec: unit ** n for rational n — the dimension
vector scales by n and the scale factor is raised to n (real-valued
exponentiation, total). -/
def Unit.pow (a : Unit) (r : ℚ) : Unit := ⟨Dimension.smul r a.dim, a.scale ^ (r : ℝ)⟩

/-- Modelled from the spec: two units are compatible iff their dimension
vectors are equal. -/
def Unit.compatible (a b : Unit) : Prop := a.dim = b.dim

instance (a b : Unit) : Decidable (a.compatible b) := by
  unfold Unit.compatible; infer_instance

/-- The SI meter: base length unit, scale factor 1. -/
def meter : Unit := ⟨dimLength, 1⟩

/-- centimeter = 0.01 · meter. -/
def centimeter : Unit := ⟨dimLength, 1 / 100⟩

/-- kilometer = 1000 · meter. -/
def kilometer : Unit := ⟨dimLength, 1000⟩

/-- nanometer = 10⁻⁹ · meter. -/
def nanometer : Unit := ⟨dimLength, 1 / 10 ^ 9⟩

/-- The SI second: base time unit, scale factor 1. -/
def second : Unit := ⟨dimTime, 1⟩

/-- The SI kelvin: base temperature unit, scale factor 1. -/
def kelvin : Unit := ⟨dimTemperature, 1⟩

/-- megakelvin = 10⁶ · kelvin. -/
def megakelvin : Unit := ⟨dimTemperature, 10 ^ 6⟩

/-- The SI joule: energy unit with scale factor 1. -/
def joule : Unit := ⟨dimEnergy, 1⟩

/-- The electronvolt: an energy unit, 1 eV = 1.602176634 × 10⁻¹⁹ joule. -/
def electronvolt : Unit := ⟨dimEnergy, 1602176634 / 10 ^ 28⟩

/-- kiloelectronvolt = 1000 · electronvolt. -/
def kiloelectronvolt : Unit := ⟨dimEnergy, 1602176634 / 10 ^ 25⟩

/-- joule per kelvin: the unit of the Boltzmann constant. -/
def joulePerKelvin : Unit := ⟨⟨2, 1, -2, 0, -1, 0, 0, 0⟩, 1⟩

/-- The SI coulomb: charge unit with scale factor 1. -/
def coulomb : Unit := ⟨dimCharge, 1⟩

/-- Modelled from the spec: the error taxonomy of the engine; all errors
are raised synchronously, modelled as an `Except` result at the point of
the offending operation. -/
inductive QuantityError where
  | IncompatibleUnitsError
  | NoConversionPathError
  | MissingUnitSystemError
  | UnknownPhysicalTypeError
deriving DecidableEq

/-- Modelled from the spec: a Quantity is a pair (magnitude, unit); the
magnitude here is a scalar. -/
structure Quantity where
  mag : ℝ
  unit : Unit

/-- Modelled from the spec: addition succeeds only if the units are
compatible (equal dimension vectors); the right operand is converted to
the left operand's unit before combining magnitudes, and the result
carries the left operand's unit; otherwise `IncompatibleUnitsError`. -/
def Quantity.add (a b : Quantity) : Except QuantityError Quantity :=
  if a.unit.dim = b.unit.dim then
    .ok ⟨a.mag + b.mag * b.unit.scale / a.unit.scale, a.unit⟩
  else
    .error .IncompatibleUnitsError

/-- Modelled from the spec: subtraction, same compatibility contract as
addition. -/
def Quantity.sub (a b : Quantity) : Except QuantityError Quantity :=
  if a.unit.dim = b.unit.dim then
    .ok ⟨a.mag - b.mag * b.unit.scale / a.unit.scale, a.unit⟩
  else
    .error .IncompatibleUnitsError

/-- Modelled from the spec: multiplication always succeeds; the result
magnitude is the product of the magnitudes and the result unit is the
product of the units. -/
def Quantity.mul (a b : Quantity) : Quantity :=
  ⟨a.mag * b.mag, a.unit.mul b.unit⟩

/-- Modelled from the spec: division always succeeds; the result magnitude
is the quotient of the magnitudes and the result unit is the quotient of
the units. -/
def Quantity.div (a b : Quantity) : Quantity :=
  ⟨a.mag / b.mag, a.unit.div b.unit⟩

/-- Modelled from the spec: exponentiation by an integer or rational
succeeds unconditionally (the exponent is an arbitrary rational, and the
integers embed in it); the magnitude is raised to the exponent and the
dimension vector scales accordingly. -/
def Quantity.pow (a : Quantity) (r : ℚ) : Quantity :=
  ⟨a.mag ^ (r : ℝ), a.unit.pow r⟩

/-- Modelled from the spec: a bare number combined multiplicatively with a
Quantity rescales the magnitude and keeps the unit. -/
def Quantity.smul (r : ℝ) (a : Quantity) : Quantity := ⟨r * a.mag, a.unit⟩

/-- Modelled from the spec: an equivalency is a named conversion rule
between two otherwise dimensionally-incompatible dimension vectors, with
an explicit forward function and inverse function acting on the value
expressed in base units. -/
structure Equivalency where
  src : Dimension
  tgt : Dimension
  fwd : ℝ → ℝ
  inv : ℝ → ℝ

/-- Modelled from the spec: conversion is attempted via each supplied
equivalency in order; the first equivalency whose domain/codomain matches
the source/target dimension pair is applied (forward or inverse function
as needed). Returns the converted base-unit value, or none. -/
def applyEquivalencies : List Equivalency → Dimension → Dimension → ℝ → Option ℝ
  | [], _, _, _ => none
  | e :: rest, s, t, v =>
    if e.src = s ∧ e.tgt = t then some (e.fwd v)
    else if e.src = t ∧ e.tgt = s then some (e.inv v)
    else applyEquivalencies rest s t v

/-- Modelled from the spec: `.to(target_unit, equivalencies)` converts the
magnitude to the target unit. If the dimension vectors already match this
is a pure scale-factor rescale; otherwise the supplied equivalencies are
tried in order on the base-unit value, and if none matches the conversion
fails with `IncompatibleUnitsError`. No implicit equivalencies are ever
applied. -/
def Quantity.to (a : Quantity) (u : Unit) (eqs : List Equivalency) :
    Except QuantityError Quantity :=
  if a.unit.dim = u.dim then
    .ok ⟨a.mag * a.unit.scale / u.scale, u⟩
  else
    match applyEquivalencies eqs a.unit.dim u.dim (a.mag * a.unit.scale) with
    | some w => .ok ⟨w / u.scale, u⟩
    | none => .error .IncompatibleUnitsError

/-- The Boltzmann constant in joule per kelvin (exact SI value
1.380649 × 10⁻²³). -/
def kBval : ℝ := 1380649 / 10 ^ 29

/-- Modelled from the spec: the temperature-energy equivalency, bridging
the energy and temperature dimension vectors via the Boltzmann constant
(E = k_B · T, so forward is E ↦ E / k_B and inverse is T ↦ k_B · T). -/
def temperature_energy : Equivalency :=
  ⟨dimEnergy, dimTemperature, fun v => v / kBval, fun v => v * kBval⟩

/-- Modelled from the spec: a Constant is a predefined Quantity with a
fixed value and, for some constants (e.g. electromagnetic constants), a
required unit system context, absent which arithmetic on it must fail
explicitly. The stored value/unit are the SI ones. -/
structure Constant where
  value : ℝ
  unit : Unit
  needsUnitSystem : Bool

/-- Modelled from the spec: selecting the SI unit system for a Constant
yields an ordinary Quantity on which all arithmetic succeeds. -/
def Constant.si (c : Constant) : Quantity := ⟨c.value, c.unit⟩

/-- Modelled from the spec: arithmetic on a Constant (here: multiplication
by a bare number) fails with `MissingUnitSystemError` when the Constant
requires a unit system that has not been specified. -/
def Constant.numMul (r : ℝ) (c : Constant) : Except QuantityError Quantity :=
  if c.needsUnitSystem then .error .MissingUnitSystemError
  else .ok ⟨r * c.value, c.unit⟩

/-- The Boltzmann constant as a Constant; no unit system context needed. -/
def k_B : Constant := ⟨kBval, joulePerKelvin, false⟩

/-- The elementary charge as a Constant; as an electromagnetic constant it
requires a unit system context. Its SI value is 1.602176634 × 10⁻¹⁹ C. -/
def elementaryCharge : Constant := ⟨1602176634 / 10 ^ 28, coulomb, true⟩

/-- Modelled from the spec: a PhysicalType is a dimension vector together
with the (possibly empty) list of canonical names registered for it. -/
structure PhysicalType where
  dim : Dimension
  names : List String
deriving DecidableEq

/-- Modelled from the spec: the static table mapping dimension vectors to
one or more canonical names. -/
def physicalTypeRegistry : List (Dimension × List String) :=
  [(dimLength, ["length"]),
   (dimTime, ["time"]),
   (dimTemperature, ["temperature"]),
   (dimEnergy, ["energy", "work", "torque"]),
   (⟨1, 0, -1, 0, 0, 0, 0, 0⟩, ["speed", "velocity"]),
   (⟨2, 0, -1, 0, 0, 0, 0, 0⟩, ["diffusivity", "kinematic viscosity"]),
   (⟨-1, 1, -2, 0, 0, 0, 0, 0⟩, ["energy density", "pressure", "stress"]),
   (⟨-3, 0, 0, 0, 0, 0, 0, 0⟩, ["number density"])]

/-- Modelled from the spec: look up the names registered for a dimension
vector; an unregistered vector has no names. -/
def lookupDim (d : Dimension) : List String :=
  match physicalTypeRegistry.find? (fun p => decide (p.1 = d)) with
  | some p => p.2
  | none => []

/-- Modelled from the spec: `classify(unit)` computes the unit's dimension
vector and looks it up in the static table; unregistered dimension vectors
classify as an anonymous type, never an error. -/
def classify (u : Unit) : PhysicalType := ⟨u.dim, lookupDim u.dim⟩

/-- Modelled from the spec: a physical type with no registered name
renders as "unknown"; a registered one renders as its first name. -/
def PhysicalType.render (pt : PhysicalType) : String :=
  match pt.names with
  | [] => "unknown"
  | n :: _ => n

/-- Modelled from the spec: multiplying two physical types combines their
dimension vectors and re-resolves the name table. -/
def PhysicalType.mul (a b : PhysicalType) : PhysicalType :=
  ⟨a.dim.add b.dim, lookupDim (a.dim.add b.dim)⟩

/-- Modelled from the spec: a Quantity whose magnitude is a fixed-shape
numeric array, represented as a list of magnitudes sharing one unit. -/
structure QArray where
  mags : List ℝ
  unit : Unit

/-- Modelled from the spec: selecting one element of an array Quantity by
index yields a scalar Quantity carrying the array's unit. -/
def QArray.get (a : QArray) (i : Nat) : Option Quantity :=
  (a.mags[i]?).map (fun m => ⟨m, a.unit⟩)

/-- Modelled from the spec: the maximum over a non-empty array Quantity is
a scalar Quantity carrying the array's unit. -/
def QArray.max (a : QArray) : Option Quantity :=
  match a.mags with
  | [] => none
  | m :: rest => some ⟨rest.foldl Max.max m, a.unit⟩

/-- Claim C1: for every pair of Quantities whose units have unequal
dimension vectors, addition fails with `IncompatibleUnitsError`, returned
synchronously as the result of the offending operation. -/
theorem add_incompatible_raises (a b : Quantity) (h : a.unit.dim ≠ b.unit.dim) :
    a.add b = .error .IncompatibleUnitsError := by
  simp [Quantity.add, h]

theorem add_incompatible_raises_witness :
    (Quantity.mk 3 meter).unit.dim ≠ (Quantity.mk 3 second).unit.dim ∧
    Quantity.add ⟨3, meter⟩ ⟨3, second⟩ = .error .IncompatibleUnitsError :=
  ⟨by norm_num [meter, second, dimLength, dimTime],
   add_incompatible_raises ⟨3, meter⟩ ⟨3, second⟩
     (by norm_num [meter, second, dimLength, dimTime])⟩

/-- Claim C2: for every pair of Quantities with equal dimension vectors,
addition succeeds; the right operand is converted to the left operand's
unit before the magnitudes are combined, and the result carries the left
operand's unit. In particular 1 meter + 25 centimeter = 1.25 meter (see
the witness). -/
theorem add_compatible_converts (a b : Quantity) (h : a.unit.dim = b.unit.dim) :
    a.add b = .ok ⟨a.mag + b.mag * b.unit.scale / a.unit.scale, a.unit⟩ := by
  simp [Quantity.add, h]

theorem add_compatible_converts_witness :
    (Quantity.mk 1 meter).unit.dim = (Quantity.mk 25 centimeter).unit.dim ∧
    Quantity.add ⟨1, meter⟩ ⟨25, centimeter⟩ = .ok ⟨5 / 4, meter⟩ := by
  refine ⟨by norm_num [meter, centimeter, dimLength], ?_⟩
  rw [add_compatible_converts ⟨1, meter⟩ ⟨25, centimeter⟩
    (by norm_num [meter, centimeter, dimLength])]
  norm_num [meter, centimeter]

/-- Claim C3: converting 1 electronvolt to kelvin with no equivalencies
fails with `IncompatibleUnitsError` (no implicit equivalencies are ever
applied), but with the temperature-energy equivalency supplied the same
conversion succeeds and yields a deterministic positive value. -/
theorem eV_to_kelvin_equivalency :
    Quantity.to ⟨1, electronvolt⟩ kelvin [] = .error .IncompatibleUnitsError ∧
    Quantity.to ⟨1, electronvolt⟩ kelvin [temperature_energy] =
      .ok ⟨16021766340 / 1380649, kelvin⟩ ∧
    (0 : ℝ) < 16021766340 / 1380649 := by
  refine ⟨?_, ?_, by norm_num⟩
  · norm_num [Quantity.to, electronvolt, kelvin, dimEnergy, dimTemperature, applyEquivalencies]
  · norm_num [Quantity.to, electronvolt, kelvin, dimEnergy, dimTemperature, applyEquivalencies,
      temperature_energy, kBval]

/-- Claim C4: for all compatible units U1, U2 (with nonzero scale factors)
and every magnitude m, converting m U1 to U2 and back to U1 is the
identity: conversion between equal dimension vectors is a pure
scale-factor rescale, so the round trip returns exactly m U1. -/
theorem to_roundtrip (m : ℝ) (U1 U2 : Unit) (hdim : U1.dim = U2.dim)
    (h1 : U1.scale ≠ 0) (h2 : U2.scale ≠ 0) :
    (Quantity.to ⟨m, U1⟩ U2 []).bind (fun q => Quantity.to q U1 []) = .ok ⟨m, U1⟩ := by
  simp [Quantity.to, hdim, Except.bind]
  field_simp

theorem to_roundtrip_witness :
    kilometer.dim = meter.dim ∧ kilometer.scale ≠ 0 ∧ meter.scale ≠ 0 ∧
    (Quantity.to ⟨7, kilometer⟩ meter []).bind (fun q => Quantity.to q kilometer []) =
      .ok ⟨7, kilometer⟩ :=
  ⟨by norm_num [kilometer, meter, dimLength], by norm_num [kilometer], by norm_num [meter],
   to_roundtrip 7 kilometer meter (by norm_num [kilometer, meter, dimLength])
     (by norm_num [kilometer]) (by norm_num [meter])⟩

/-- Claim C5: multiplication and division of any two Quantities always
succeed (they are total functions): the result magnitude is the
product/quotient of the magnitudes, the result unit is the
product/quotient of the units, and the result unit's dimension vector is
the component-wise sum/difference of the operands' dimension vectors. -/
theorem mul_div_always_succeed (a b : Quantity) :
    (a.mul b).mag = a.mag * b.mag ∧ (a.mul b).unit = a.unit.mul b.unit ∧
    (a.mul b).unit.dim = a.unit.dim.add b.unit.dim ∧
    (a.div b).mag = a.mag / b.mag ∧ (a.div b).unit = a.unit.div b.unit ∧
    (a.div b).unit.dim = a.unit.dim.sub b.unit.dim :=
  ⟨rfl, rfl, rfl, rfl, rfl, rfl⟩

/-- Claim C6: exponentiation agrees with repeated multiplication —
Q ** 2 equals Q * Q in both magnitude and unit — and exponentiation by
any integer or rational exponent succeeds unconditionally (it is a total
function of an arbitrary rational exponent, the integers embedded in it):
the magnitude and scale factor are raised to the exponent and the
dimension vector is scaled by the exponent. -/
theorem pow_rational_succeeds (q : Quantity) (r : ℚ) :
    q.pow 2 = q.mul q ∧ (q.pow r).unit.dim = Dimension.smul r q.unit.dim ∧
    (q.pow r).mag = q.mag ^ (r : ℝ) ∧ (q.pow r).unit.scale = q.unit.scale ^ (r : ℝ) := by
  refine ⟨?_, rfl, rfl, rfl⟩
  rcases q with ⟨m, ⟨d, s⟩⟩
  simp [Quantity.pow, Quantity.mul, Unit.pow, Unit.mul, Dimension.smul, Dimension.add,
    two_mul, Rat.cast_ofNat, Real.rpow_two, pow_two]

/-- Claim C7: for every Constant that requires a unit system context,
arithmetic on it without the unit system specified fails with
`MissingUnitSystemError`, whereas the same arithmetic succeeds (it is an
ordinary total Quantity operation) once a unit system is selected via its
`.si` form. -/
theorem constant_unit_system (c : Constant) (r : ℝ) (h : c.needsUnitSystem = true) :
    Constant.numMul r c = .error .MissingUnitSystemError ∧
    Quantity.smul r c.si = ⟨r * c.value, c.unit⟩ :=
  ⟨by simp [Constant.numMul, h], rfl⟩

theorem constant_unit_system_witness :
    elementaryCharge.needsUnitSystem = true ∧
    (Constant.numMul 2 elementaryCharge = .error .MissingUnitSystemError ∧
     Quantity.smul 2 elementaryCharge.si = ⟨2 * elementaryCharge.value, elementaryCharge.unit⟩) :=
  ⟨rfl, constant_unit_system elementaryCharge 2 rfl⟩

/-- Claim C8: classify on the unit meter² / second returns the registered
physical type for that dimension vector (named "diffusivity"), and for
every unit whose dimension vector is not in the registry, classify
returns an unnamed-but-valid physical type (it keeps the unit's dimension
vector, has no names and renders as "unknown") rather than an error. -/
theorem classify_registry (u : Unit) :
    "diffusivity" ∈ (classify (Unit.div (Unit.pow meter 2) second)).names ∧
    (classify u).dim = u.dim ∧
    (lookupDim u.dim = [] → (classify u).names = [] ∧ (classify u).render = "unknown") := by
  refine ⟨?_, rfl, fun h => ?_⟩
  · norm_num [classify, lookupDim, physicalTypeRegistry, Unit.div, Unit.pow, meter, second,
      Dimension.sub, Dimension.smul, dimLength, dimTime, dimTemperature, dimEnergy, List.find?]
  · simp [classify, h, PhysicalType.render]

theorem classify_registry_witness :
    lookupDim (Unit.mul meter second).dim = [] ∧
    ((classify (Unit.mul meter second)).names = [] ∧
     (classify (Unit.mul meter second)).render = "unknown") :=
  ⟨by norm_num [lookupDim, physicalTypeRegistry, Unit.mul, meter, second, Dimension.add,
      dimLength, dimTime, dimTemperature, dimEnergy, List.find?],
   (classify_registry (Unit.mul meter second)).2.2
     (by norm_num [lookupDim, physicalTypeRegistry, Unit.mul, meter, second, Dimension.add,
       dimLength, dimTime, dimTemperature, dimEnergy, List.find?])⟩

/-- Claim C9: for every array Quantity, selecting one element by index
returns a scalar Quantity carrying the same unit as the array, and taking
the maximum over the (non-empty) array returns a Quantity in that same
unit; neither operation strips or changes the unit. -/
theorem qarray_ops_preserve_unit (a : QArray) (i : Nat) (q r : Quantity)
    (h1 : a.get i = some q) (h2 : a.max = some r) :
    q.unit = a.unit ∧ r.unit = a.unit := by
  rcases a with ⟨ms, u⟩
  simp only [QArray.get, Option.map_eq_some'] at h1
  rcases h1 with ⟨m, hm, hq⟩
  cases ms with
  | nil => simp [QArray.max] at h2
  | cons x xs =>
    simp only [QArray.max, Option.some.injEq] at h2
    exact ⟨by rw [← hq], by rw [← h2]⟩

theorem qarray_ops_preserve_unit_witness :
    QArray.get ⟨[656, 486, 434, 410], nanometer⟩ 0 = some ⟨656, nanometer⟩ ∧
    QArray.max ⟨[656, 486, 434, 410], nanometer⟩ = some ⟨656, nanometer⟩ ∧
    ((⟨656, nanometer⟩ : Quantity).unit = (⟨[656, 486, 434, 410], nanometer⟩ : QArray).unit ∧
     (⟨656, nanometer⟩ : Quantity).unit = (⟨[656, 486, 434, 410], nanometer⟩ : QArray).unit) := by
  have hg : QArray.get ⟨[656, 486, 434, 410], nanometer⟩ 0 = some ⟨656, nanometer⟩ := by
    norm_num [QArray.get]
  have hx : QArray.max ⟨[656, 486, 434, 410], nanometer⟩ = some ⟨656, nanometer⟩ := by
    norm_num [QArray.max, List.foldl, max_def]
  exact ⟨hg, hx, qarray_ops_preserve_unit _ 0 _ _ hg hx⟩

/-- Claim C10: for every energy Quantity E, dividing E by the Boltzmann
constant yields a Quantity of temperature dimension that converts to
kelvin with plain `.to` and no equivalencies, and the result equals the
value obtained by converting E directly to kelvin with the
temperature-energy equivalency supplied: the two conversion routes
agree exactly. -/
theorem energy_over_kB_matches_equivalency (E : Quantity) (h : E.unit.dim = dimEnergy) :
    (Quantity.div E k_B.si).unit.dim = dimTemperature ∧
    Quantity.to (Quantity.div E k_B.si) kelvin [] = Quantity.to E kelvin [temperature_energy] ∧
    Quantity.to (Quantity.div E k_B.si) kelvin [] = .ok ⟨E.mag * E.unit.scale / kBval, kelvin⟩ := by
  rcases E with ⟨m, ⟨d, s⟩⟩
  simp only [Unit.mk.injEq] at h ⊢
  subst h
  refine ⟨?_, ?_, ?_⟩
  · norm_num [Quantity.div, Constant.si, k_B, joulePerKelvin, Unit.div, Dimension.sub, dimEnergy,
      dimTemperature]
  · norm_num [Quantity.div, Constant.si, k_B, joulePerKelvin, Unit.div, Dimension.sub, dimEnergy,
      dimTemperature, Quantity.to, kelvin, applyEquivalencies, temperature_energy, kBval]
    ring
  · norm_num [Quantity.div, Constant.si, k_B, joulePerKelvin, Unit.div, Dimension.sub, dimEnergy,
      dimTemperature, Quantity.to, kelvin, kBval]
    ring

theorem energy_over_kB_matches_equivalency_witness :
    (Quantity.mk (3 / 5) kiloelectronvolt).unit.dim = dimEnergy ∧
    ((Quantity.div ⟨3 / 5, kiloelectronvolt⟩ k_B.si).unit.dim = dimTemperature ∧
     Quantity.to (Quantity.div ⟨3 / 5, kiloelectronvolt⟩ k_B.si) kelvin [] =
       Quantity.to ⟨3 / 5, kiloelectronvolt⟩ kelvin [temperature_energy] ∧
     Quantity.to (Quantity.div ⟨3 / 5, kiloelectronvolt⟩ k_B.si) kelvin [] =
       .ok ⟨3 / 5 * kiloelectronvolt.scale / kBval, kelvin⟩) :=
  ⟨by norm_num [kiloelectronvolt],
   energy_over_kB_matches_equivalency ⟨3 / 5, kiloelectronvolt⟩ (by norm_num [kiloelectronvolt])⟩

end

end AstropyUnits
